import Mathlib

/-!
Shallow embedding of
`src/interpretability/interpretability_models/symbolic_pursuit_explainer.py`.

The opaque predictive model and the symbolic-pursuit surrogate
(`symbolic_pursuit.models.SymbolicRegressor`) are external collaborators:
they are modelled as oracles (records of response functions) whose calls may
fail with a Python-style exception.  Numeric batches carry both their content
(rationals standing for the floating-point payload) and their representation
tag (`numpy` vs `tensor`): `torch.Tensor(x)` keeps the content and switches
the tag to `tensor`.  Each Python method becomes a Lean function returning
the raised-or-returned outcome together with the post-state of the explainer
object (Python mutates `self` in place, so an escaping exception still leaves
the mutations behind).
-/

/-- The two input representations an opaque model might accept:
plain numpy arrays or torch tensors. -/
inductive DataRep : Type
  | numpy
  | tensor
deriving DecidableEq

/-- A numeric array together with its representation tag.  Content is
unchanged by representation conversion. -/
structure NumArr (α : Type) : Type where
  content : α
  rep : DataRep
deriving DecidableEq

/-- A 2-D batch of feature vectors (rows of rationals). -/
abbrev Batch : Type := NumArr (List (List ℚ))

/-- A 1-D array of labels. -/
abbrev Labels : Type := NumArr (List ℚ)

/-- A 1-D array of predictions (content only; scoring reads content). -/
abbrev Pred : Type := List ℚ

/-- `torch.Tensor(x)`: convert an array to the tensor representation,
preserving content.  Idempotent on tensors. -/
def torchTensor {α : Type} (a : NumArr α) : NumArr α :=
  ⟨a.content, DataRep.tensor⟩

/-- The Python exceptions that the module raises, catches or re-raises.
`typeError` is the representation-mismatch failure caught by the fallback
loops; the two `...CalledBeforeFit` errors come from
`interpretability.exceptions` and carry the state flag passed to their
constructor; other exception kinds are distinguished only as not being
`TypeError`. -/
inductive PyError : Type
  | typeError
  | attributeError
  | runtimeError
  | otherError (code : Nat)
  | measureFitQualityCalledBeforeFit (has_been_fit : Bool)
  | explainCalledBeforeFit (has_been_fit : Bool)
deriving DecidableEq

/-- The opaque model being explained: a callable on a batch, which may raise
(e.g. `TypeError` on a representation it rejects). -/
abbrev OpaqueModel : Type := Batch → Except PyError Pred

/-- The external `SymbolicRegressor` capability, as an oracle of response
functions: `fit(model, data)`, `predict(data)` may raise; the read-only
accessors return opaque symbolic artifacts (abstracted as strings).
`task_type` is fixed at construction. -/
structure SymbolicModel : Type where
  task_type : String
  fit : OpaqueModel → Batch → Except PyError Unit
  predict : Batch → Except PyError Pred
  get_expression : String
  get_projections : String
  get_feature_importance : Option (List ℚ) → String
  get_taylor : Option (List ℚ) → Nat → String

/-- `sklearn.metrics.mean_squared_error(y_true, y_pred)` (external):
the mean of the squared componentwise differences. -/
def mean_squared_error (y_true : List ℚ) (y_pred : List ℚ) : ℚ :=
  (List.zipWith (fun a b => (a - b) ^ 2) y_true y_pred).sum / (y_true.length : ℚ)

/-- `sklearn.metrics.accuracy_score(y_true, y_pred)` (external):
the fraction of exactly matching components. -/
def accuracy_score (y_true : List ℚ) (y_pred : List ℚ) : ℚ :=
  (List.zipWith (fun a b => if a = b then (1 : ℚ) else 0) y_true y_pred).sum
    / (y_true.length : ℚ)

/-- The `SymbolicPursuitExplanation` record built by `explain`. -/
structure SymbolicPursuitExplanation : Type where
  expression : String
  projections : String
  x0 : Option (List ℚ)
  feature_importance : String
  taylor_expansion : String
  model_fit_quality : Option ℚ
  fit_quality : Option ℚ
deriving DecidableEq

/-- The mutable state of a `SymbolicPursuitExplainer` object.  `X_test`,
`y_test` and `explanation` are `Option`s because the Python attributes do not
exist until first assigned. -/
structure SymbolicPursuitExplainer : Type where
  model : OpaqueModel
  X_explain : Batch
  model_fit_quality : Option ℚ
  fit_quality : Option ℚ
  feature_names : Option (List String)
  symbolic_model : SymbolicModel
  has_been_fit : Bool
  X_test : Option Batch
  y_test : Option Labels
  explanation : Option SymbolicPursuitExplanation

namespace SymbolicPursuitExplainer

/-- `SymbolicPursuitExplainer.__init__`.  The surrogate instance stands for
`models.SymbolicRegressor(*argv, **kwargs)`.  The fitted flag is not set in
this file's `__init__`; it comes from the base `Explainer` class (not under
src/).  Modelled from the spec: construction post-condition is state =
`unfit`, i.e. `has_been_fit = false`. -/
def init (model : OpaqueModel) (X_explain : Batch) (feature_names : List String)
    (symbolic_model : SymbolicModel) : SymbolicPursuitExplainer :=
  { model := model
    X_explain := X_explain
    model_fit_quality := none
    fit_quality := none
    feature_names := if feature_names.isEmpty then none else some feature_names
    symbolic_model := symbolic_model
    has_been_fit := false
    X_test := none
    y_test := none
    explanation := none }

/-- `fit()`: the two-iteration `for retry in range(2)` loop, unrolled.  Each
iteration tries `self.symbolic_model.fit(self.model, self.X_explain)`; a
`TypeError` is caught and `self.X_explain` is converted to a tensor; any
other exception escapes the loop.  Note that a `TypeError` on the second
iteration is also caught (the loop then simply ends), after which
`self.has_been_fit = True` runs unconditionally. -/
def fit (e : SymbolicPursuitExplainer) :
    Except PyError Unit × SymbolicPursuitExplainer :=
  match e.symbolic_model.fit e.model e.X_explain with
  | Except.ok _ => (Except.ok (), { e with has_been_fit := true })
  | Except.error PyError.typeError =>
    let e1 := { e with X_explain := torchTensor e.X_explain }
    match e1.symbolic_model.fit e1.model e1.X_explain with
    | Except.ok _ => (Except.ok (), { e1 with has_been_fit := true })
    | Except.error PyError.typeError =>
      let e2 := { e1 with X_explain := torchTensor e1.X_explain }
      (Except.ok (), { e2 with has_been_fit := true })
    | Except.error err => (Except.error err, e1)
  | Except.error err => (Except.error err, e)

/-- One `for retry in range(2)` scoring loop from `measure_fit_quality`:
try `score := scorer(y, predict(X))` and stop; on `TypeError` convert both
`X` and `y` to tensors and retry; a second `TypeError` is also caught (the
loop ends with the score never assigned, reported here as `none`); any other
exception escapes.  Returns the outcome plus the final `X`, `y`. -/
def tryScoreTwice (predict : Batch → Except PyError Pred)
    (scorer : List ℚ → Pred → ℚ) (X : Batch) (y : Labels) :
    Except PyError (Option ℚ) × Batch × Labels :=
  match predict X with
  | Except.ok p => (Except.ok (some (scorer y.content p)), X, y)
  | Except.error PyError.typeError =>
    let X1 := torchTensor X
    let y1 := torchTensor y
    match predict X1 with
    | Except.ok p => (Except.ok (some (scorer y1.content p)), X1, y1)
    | Except.error PyError.typeError =>
      (Except.ok none, torchTensor X1, torchTensor y1)
    | Except.error err => (Except.error err, X1, y1)
  | Except.error err => (Except.error err, X, y)

/-- Assign a Python variable only when the loop actually computed a score
(`none` means the `break` was never reached, so the old value remains). -/
def updateOpt (newVal : Option ℚ) (oldVal : Option ℚ) : Option ℚ :=
  match newVal with
  | some q => some q
  | none => oldVal

/-- The body shared by the `classification` and `regression` branches of
`measure_fit_quality` (they differ only in the scoring function): first the
surrogate-prediction loop assigning `self.fit_quality`, then the
opaque-model-prediction loop assigning `self.model_fit_quality`, each with
its own representation fallback, threading `self.X_test` / `self.y_test`. -/
def runBranch (e : SymbolicPursuitExplainer) (scorer : List ℚ → Pred → ℚ)
    (X : Batch) (y : Labels) :
    Except PyError Unit × SymbolicPursuitExplainer :=
  match tryScoreTwice e.symbolic_model.predict scorer X y with
  | (Except.error err, X1, y1) =>
    (Except.error err, { e with X_test := some X1, y_test := some y1 })
  | (Except.ok s1, X1, y1) =>
    let e1 := { e with X_test := some X1, y_test := some y1,
                       fit_quality := updateOpt s1 e.fit_quality }
    match tryScoreTwice e1.model scorer X1 y1 with
    | (Except.error err, X2, y2) =>
      (Except.error err, { e1 with X_test := some X2, y_test := some y2 })
    | (Except.ok s2, X2, y2) =>
      let e2 := { e1 with X_test := some X2, y_test := some y2,
                          model_fit_quality := updateOpt s2 e1.model_fit_quality }
      (Except.ok (), e2)

/-- `measure_fit_quality(X_test, y_test)`: gated on `self.has_been_fit`
(raising `MeasureFitQualityCalledBeforeFit(self.has_been_fit)` otherwise);
stores `X_test`/`y_test`, then scores surrogate and opaque model with
`accuracy_score` for `task_type == "classification"` or
`mean_squared_error` for `task_type == "regression"` (any other task type
computes nothing).  The two `print` calls have no state effect. -/
def measure_fit_quality (e : SymbolicPursuitExplainer) (X_test : Batch)
    (y_test : Labels) : Except PyError Unit × SymbolicPursuitExplainer :=
  if e.has_been_fit then
    let e0 := { e with X_test := some X_test, y_test := some y_test }
    if e.symbolic_model.task_type = "classification" then
      runBranch e0 accuracy_score X_test y_test
    else if e.symbolic_model.task_type = "regression" then
      runBranch e0 mean_squared_error X_test y_test
    else (Except.ok (), e0)
  else
    (Except.error (PyError.measureFitQualityCalledBeforeFit e.has_been_fit), e)

/-- The `SymbolicPursuitExplanation(...)` constructed inside `explain`:
accessor outputs for the given `x0` and order, plus whatever fit-quality
scores are currently stored on the explainer. -/
def mkExplanation (e : SymbolicPursuitExplainer) (x0 : Option (List ℚ))
    (taylor_expansion_order : Nat) : SymbolicPursuitExplanation :=
  { expression := e.symbolic_model.get_expression
    projections := e.symbolic_model.get_projections
    x0 := x0
    feature_importance := e.symbolic_model.get_feature_importance x0
    taylor_expansion := e.symbolic_model.get_taylor x0 taylor_expansion_order
    model_fit_quality := e.model_fit_quality
    fit_quality := e.fit_quality }

/-- `explain(x0, taylor_expansion_order)`: gated on `self.has_been_fit`
(raising `ExplainCalledBeforeFit(self.has_been_fit)` otherwise); builds a
new explanation record from the surrogate accessors and the stored scores,
stores it in `self.explanation`, and returns it. -/
def explain (e : SymbolicPursuitExplainer) (x0 : Option (List ℚ))
    (taylor_expansion_order : Nat) :
    Except PyError SymbolicPursuitExplanation × SymbolicPursuitExplainer :=
  if e.has_been_fit then
    let expl := mkExplanation e x0 taylor_expansion_order
    (Except.ok expl, { e with explanation := some expl })
  else
    (Except.error (PyError.explainCalledBeforeFit e.has_been_fit), e)

/-- `explain()` with Python's default arguments: `x0 = None`,
`taylor_expansion_order = 2`. -/
def explain_defaults (e : SymbolicPursuitExplainer) :
    Except PyError SymbolicPursuitExplanation × SymbolicPursuitExplainer :=
  explain e none 2

/-- `summary_plot(file_prefilx, show, save_folder)`: accessing
`self.explanation` raises `AttributeError` when `explain` was never called;
with `show` the external rendering outcome is surfaced (a `RuntimeError` is
re-raised after printing a hint); without `show` the record is printed.  No
explainer field is written. -/
def summary_plot (e : SymbolicPursuitExplainer) (showFlag : Bool)
    (renderResult : Except PyError Unit) :
    Except PyError Unit × SymbolicPursuitExplainer :=
  match e.explanation with
  | none => (Except.error PyError.attributeError, e)
  | some _ => if showFlag then (renderResult, e) else (Except.ok (), e)

/-- `symbolic_predict(predict_array)`:
`return self.symbolic_model.predict(predict_array)`. -/
def symbolic_predict (e : SymbolicPursuitExplainer) (predict_array : Batch) :
    Except PyError Pred × SymbolicPursuitExplainer :=
  (e.symbolic_model.predict predict_array, e)

end SymbolicPursuitExplainer

open SymbolicPursuitExplainer

/-! Concrete oracle instances used to evaluate the embedding on the failure
scenarios of the spec and to witness the hypotheses of the theorems below. -/

/-- A concrete 2×2 numpy batch. -/
def demoBatch : Batch := ⟨[[1, 2], [3, 4]], DataRep.numpy⟩

/-- A concrete numpy label vector. -/
def demoLabels : Labels := ⟨[0, 1], DataRep.numpy⟩

/-- An opaque model that accepts every representation and predicts 0. -/
def demoModel : OpaqueModel := fun b => Except.ok (b.content.map (fun _ => 0))

/-- A surrogate oracle whose fit probes the opaque model on the sample (and
so surfaces the model's representation mismatches) and whose own predictions
accept every representation. -/
def demoSurrogate : SymbolicModel :=
  { task_type := "regression"
    fit := fun m X => (m X).map (fun _ => ())
    predict := fun X => Except.ok (X.content.map (fun _ => 0))
    get_expression := "g1 + g2"
    get_projections := "P1, P2"
    get_feature_importance := fun _ => "importance"
    get_taylor := fun _ _ => "taylor" }

/-- A freshly constructed explainer over the benign oracles. -/
def demoExplainer : SymbolicPursuitExplainer :=
  init demoModel demoBatch [] demoSurrogate

/-- The benign explainer after a successful fit. -/
def demoFitted : SymbolicPursuitExplainer :=
  { demoExplainer with has_been_fit := true }

/-- An opaque model that rejects both representations with `TypeError`. -/
def modelRejectsBoth : OpaqueModel := fun _ => Except.error PyError.typeError

/-- An explainer whose opaque model rejects both representations. -/
def explainerRejectsBoth : SymbolicPursuitExplainer :=
  init modelRejectsBoth demoBatch [] demoSurrogate

/-- A surrogate whose prediction rejects both representations. -/
def surrogatePredictRejects : SymbolicModel :=
  { demoSurrogate with predict := fun _ => Except.error PyError.typeError }

/-- A fitted explainer whose surrogate predictions and opaque model both
reject every representation with `TypeError`. -/
def fittedPredictRejects : SymbolicPursuitExplainer :=
  { init modelRejectsBoth demoBatch [] surrogatePredictRejects with
      has_been_fit := true }

/-- C1: the claim says that when the opaque model rejects both
representations, `fit` raises the representation-mismatch failure and the
state remains unfit.  The code behaves otherwise: the `for`/`except` loop
catches the second `TypeError` as well and never re-raises, so `fit` returns
normally and `has_been_fit` is set to `True` even though the surrogate was
never fitted.  This theorem evaluates the code on such an input. -/
theorem C1_code_behavior :
    explainerRejectsBoth.has_been_fit = false ∧
    (fit explainerRejectsBoth).1 = Except.ok () ∧
    (fit explainerRejectsBoth).2.has_been_fit = true := by
  refine ⟨rfl, rfl, rfl⟩

/-- C3: the claim says a second representation-mismatch failure at the same
call site propagates uncaught.  The code behaves otherwise at all three call
sites: here, with a fitted explainer whose surrogate prediction and opaque
model both raise `TypeError` on every representation, `measure_fit_quality`
returns normally and neither score is ever assigned. -/
theorem C3_code_behavior :
    (measure_fit_quality fittedPredictRejects demoBatch demoLabels).1 =
      Except.ok () ∧
    (measure_fit_quality fittedPredictRejects demoBatch demoLabels).2.fit_quality
      = none ∧
    (measure_fit_quality fittedPredictRejects demoBatch demoLabels).2.model_fit_quality
      = none := by
  refine ⟨rfl, rfl, rfl⟩

/-- C8: `symbolic_predict` forwards the batch unchanged to the surrogate's
predict and returns its outcome as is — no conversion, no retry, no state
check, and the explainer state is untouched, so any surrogate failure
(including one from an unfit surrogate) propagates unmodified. -/
theorem C8_thm (e : SymbolicPursuitExplainer) (predict_array : Batch) :
    symbolic_predict e predict_array =
      (e.symbolic_model.predict predict_array, e) := rfl

/-- Case analysis on `fit`: either it returns normally with the fitted flag
set, or it raises and the fitted flag is unchanged (the assignment after the
loop is never reached). -/
lemma fit_ok_or_unchanged (e : SymbolicPursuitExplainer) :
    ((fit e).1 = Except.ok () ∧ (fit e).2.has_been_fit = true) ∨
    ((∃ err, (fit e).1 = Except.error err) ∧
      (fit e).2.has_been_fit = e.has_been_fit) := by
  unfold fit
  split
  · exact Or.inl ⟨rfl, rfl⟩
  · dsimp only
    split
    · exact Or.inl ⟨rfl, rfl⟩
    · exact Or.inl ⟨rfl, rfl⟩
    · exact Or.inr ⟨⟨_, rfl⟩, rfl⟩
  · exact Or.inr ⟨⟨_, rfl⟩, rfl⟩

/-- C2: while the fitted flag is false, `measure_fit_quality` and `explain`
raise their dedicated ordering-violation errors carrying the current state
flag and leave the explainer untouched; a freshly constructed explainer
starts with the flag false; and a `fit` call that raises leaves the flag
false — so the gate holds no matter how many `fit` calls have failed. -/
theorem C2_thm (e : SymbolicPursuitExplainer) (X_test : Batch)
    (y_test : Labels) (x0 : Option (List ℚ)) (ord : Nat)
    (h : e.has_been_fit = false) :
    measure_fit_quality e X_test y_test =
      (Except.error (PyError.measureFitQualityCalledBeforeFit e.has_been_fit),
        e) ∧
    explain e x0 ord =
      (Except.error (PyError.explainCalledBeforeFit e.has_been_fit), e) ∧
    (∀ (m : OpaqueModel) (X : Batch) (fn : List String) (sm : SymbolicModel),
      (init m X fn sm).has_been_fit = false) ∧
    (∀ err, (fit e).1 = Except.error err → (fit e).2.has_been_fit = false) := by
  refine ⟨?_, ?_, fun m X fn sm => rfl, ?_⟩
  · unfold measure_fit_quality
    rw [h]
    simp
  · unfold explain
    rw [h]
    simp
  · intro err herr
    rcases fit_ok_or_unchanged e with ⟨hok, _⟩ | ⟨_, hkeep⟩
    · rw [hok] at herr
      exact absurd herr (by simp)
    · rw [hkeep, h]

/-- Witness for C2 at a concrete unfit explainer. -/
theorem C2_witness :
    measure_fit_quality demoExplainer demoBatch demoLabels =
      (Except.error
        (PyError.measureFitQualityCalledBeforeFit demoExplainer.has_been_fit),
        demoExplainer) ∧
    explain demoExplainer none 2 =
      (Except.error (PyError.explainCalledBeforeFit demoExplainer.has_been_fit),
        demoExplainer) ∧
    (∀ (m : OpaqueModel) (X : Batch) (fn : List String) (sm : SymbolicModel),
      (init m X fn sm).has_been_fit = false) ∧
    (∀ err, (fit demoExplainer).1 = Except.error err →
      (fit demoExplainer).2.has_been_fit = false) :=
  C2_thm demoExplainer demoBatch demoLabels none 2 rfl

/-- C4: when the first fit attempt raises a representation mismatch and the
attempt on the tensor-converted sample succeeds, `fit` returns normally,
the state becomes fitted, and the stored sample is the converted one (same
content, tensor representation) — exactly one conversion and retry. -/
theorem C4_thm (e : SymbolicPursuitExplainer)
    (h1 : e.symbolic_model.fit e.model e.X_explain =
      Except.error PyError.typeError)
    (h2 : e.symbolic_model.fit e.model (torchTensor e.X_explain) =
      Except.ok ()) :
    fit e = (Except.ok (),
      { e with X_explain := torchTensor e.X_explain, has_been_fit := true }) ∧
    (fit e).2.X_explain.rep = DataRep.tensor ∧
    (fit e).2.X_explain.content = e.X_explain.content := by
  unfold fit
  rw [h1]
  dsimp only
  rw [h2]
  exact ⟨rfl, rfl, rfl⟩

/-- An opaque model that accepts only the tensor representation. -/
def modelTensorOnly : OpaqueModel := fun b =>
  match b.rep with
  | DataRep.tensor => Except.ok (b.content.map (fun _ => 0))
  | DataRep.numpy => Except.error PyError.typeError

/-- An explainer over a tensor-only opaque model and a numpy sample. -/
def explainerTensorOnly : SymbolicPursuitExplainer :=
  init modelTensorOnly demoBatch [] demoSurrogate

/-- Witness for C4 at a tensor-only model with a numpy sample. -/
theorem C4_witness :
    explainerTensorOnly.symbolic_model.fit explainerTensorOnly.model
        explainerTensorOnly.X_explain = Except.error PyError.typeError ∧
    fit explainerTensorOnly = (Except.ok (),
      { explainerTensorOnly with
          X_explain := torchTensor explainerTensorOnly.X_explain,
          has_been_fit := true }) :=
  ⟨rfl, (C4_thm explainerTensorOnly rfl rfl).1⟩

/-- C6: `explain` on a fitted explainer returns a fresh record whose
fit-quality fields are exactly the scores currently stored on the explainer
(`none` when `measure_fit_quality` never ran), does not modify the stored
scores, and fills every other field from the surrogate accessors. -/
theorem C6_thm (e : SymbolicPursuitExplainer) (x0 : Option (List ℚ))
    (ord : Nat) (h : e.has_been_fit = true) :
    explain e x0 ord =
      (Except.ok (mkExplanation e x0 ord),
        { e with explanation := some (mkExplanation e x0 ord) }) ∧
    (mkExplanation e x0 ord).model_fit_quality = e.model_fit_quality ∧
    (mkExplanation e x0 ord).fit_quality = e.fit_quality ∧
    (explain e x0 ord).2.model_fit_quality = e.model_fit_quality ∧
    (explain e x0 ord).2.fit_quality = e.fit_quality ∧
    (e.model_fit_quality = none →
      (mkExplanation e x0 ord).model_fit_quality = none) ∧
    (e.fit_quality = none → (mkExplanation e x0 ord).fit_quality = none) ∧
    (mkExplanation e x0 ord).expression = e.symbolic_model.get_expression ∧
    (mkExplanation e x0 ord).projections = e.symbolic_model.get_projections ∧
    (mkExplanation e x0 ord).x0 = x0 ∧
    (mkExplanation e x0 ord).feature_importance =
      e.symbolic_model.get_feature_importance x0 ∧
    (mkExplanation e x0 ord).taylor_expansion =
      e.symbolic_model.get_taylor x0 ord := by
  have hexp : explain e x0 ord =
      (Except.ok (mkExplanation e x0 ord),
        { e with explanation := some (mkExplanation e x0 ord) }) := by
    unfold explain
    rw [h]
    simp
  refine ⟨hexp, rfl, rfl, ?_, ?_, fun hh => hh, fun hh => hh, rfl, rfl, rfl,
    rfl, rfl⟩
  · rw [hexp]
  · rw [hexp]

/-- Witness for C6 at a fitted explainer with no measured scores. -/
theorem C6_witness :
    demoFitted.has_been_fit = true ∧
    demoFitted.model_fit_quality = none ∧
    demoFitted.fit_quality = none ∧
    explain demoFitted none 2 =
      (Except.ok (mkExplanation demoFitted none 2),
        { demoFitted with explanation := some (mkExplanation demoFitted none 2) }) :=
  ⟨rfl, rfl, rfl, (C6_thm demoFitted none 2 rfl).1⟩

/-- C9: `explain()` with no arguments uses `x0 = None` and order 2: the
record's reference point is `None` and the accessors are called at `None`. -/
theorem C9_thm (e : SymbolicPursuitExplainer) (h : e.has_been_fit = true) :
    explain_defaults e =
      (Except.ok (mkExplanation e none 2),
        { e with explanation := some (mkExplanation e none 2) }) ∧
    (mkExplanation e none 2).x0 = none ∧
    (mkExplanation e none 2).feature_importance =
      e.symbolic_model.get_feature_importance none ∧
    (mkExplanation e none 2).taylor_expansion =
      e.symbolic_model.get_taylor none 2 := by
  refine ⟨?_, rfl, rfl, rfl⟩
  unfold explain_defaults explain
  rw [h]
  simp

/-- Witness for C9 at a fitted explainer. -/
theorem C9_witness :
    demoFitted.has_been_fit = true ∧
    explain_defaults demoFitted =
      (Except.ok (mkExplanation demoFitted none 2),
        { demoFitted with
            explanation := some (mkExplanation demoFitted none 2) }) :=
  ⟨rfl, (C9_thm demoFitted rfl).1⟩

/-- On a fitted explainer, `measure_fit_quality` stores the test data and
dispatches on the task type. -/
lemma measure_fit_quality_fitted (e : SymbolicPursuitExplainer) (X : Batch)
    (y : Labels) (h : e.has_been_fit = true) :
    measure_fit_quality e X y =
      (if e.symbolic_model.task_type = "classification" then
        runBranch { e with X_test := some X, y_test := some y }
          accuracy_score X y
      else if e.symbolic_model.task_type = "regression" then
        runBranch { e with X_test := some X, y_test := some y }
          mean_squared_error X y
      else (Except.ok (), { e with X_test := some X, y_test := some y })) := by
  unfold measure_fit_quality
  rw [if_pos h]

/-- Each scoring loop leaves the content of the test data unchanged (only
the representation tag can move to `tensor`). -/
lemma tryScoreTwice_content (predict : Batch → Except PyError Pred)
    (scorer : List ℚ → Pred → ℚ) (X : Batch) (y : Labels) :
    (tryScoreTwice predict scorer X y).2.1.content = X.content ∧
    (tryScoreTwice predict scorer X y).2.2.content = y.content := by
  unfold tryScoreTwice
  split
  · exact ⟨rfl, rfl⟩
  · dsimp only
    split
    · exact ⟨rfl, rfl⟩
    · exact ⟨rfl, rfl⟩
    · exact ⟨rfl, rfl⟩
  · exact ⟨rfl, rfl⟩

/-- When the prediction succeeds on the first attempt, the scoring loop
assigns the score of those predictions against the labels' content and
leaves the test data untouched. -/
lemma tryScoreTwice_ok (predict : Batch → Except PyError Pred)
    (scorer : List ℚ → Pred → ℚ) (X : Batch) (y : Labels) (p : Pred)
    (hp : predict X = Except.ok p) :
    tryScoreTwice predict scorer X y =
      (Except.ok (some (scorer y.content p)), X, y) := by
  unfold tryScoreTwice
  rw [hp]

/-- `runBranch` writes only `X_test`, `y_test`, `fit_quality` and
`model_fit_quality`; the stored test data keeps the supplied content. -/
lemma runBranch_frame (e : SymbolicPursuitExplainer)
    (scorer : List ℚ → Pred → ℚ) (X : Batch) (y : Labels) :
    (runBranch e scorer X y).2.model = e.model ∧
    (runBranch e scorer X y).2.X_explain = e.X_explain ∧
    (runBranch e scorer X y).2.feature_names = e.feature_names ∧
    (runBranch e scorer X y).2.symbolic_model = e.symbolic_model ∧
    (runBranch e scorer X y).2.has_been_fit = e.has_been_fit ∧
    (runBranch e scorer X y).2.explanation = e.explanation ∧
    (runBranch e scorer X y).2.X_test.map NumArr.content = some X.content ∧
    (runBranch e scorer X y).2.y_test.map NumArr.content = some y.content := by
  unfold runBranch
  split
  case _ err X1 y1 heq =>
    have hc := tryScoreTwice_content e.symbolic_model.predict scorer X y
    rw [heq] at hc
    exact ⟨rfl, rfl, rfl, rfl, rfl, rfl, congrArg some hc.1, congrArg some hc.2⟩
  case _ s1 X1 y1 heq =>
    have hc := tryScoreTwice_content e.symbolic_model.predict scorer X y
    rw [heq] at hc
    dsimp only
    split
    case _ err X2 y2 heq2 =>
      have hc2 := tryScoreTwice_content e.model scorer X1 y1
      rw [heq2] at hc2
      exact ⟨rfl, rfl, rfl, rfl, rfl, rfl,
        congrArg some (hc2.1.trans hc.1), congrArg some (hc2.2.trans hc.2)⟩
    case _ s2 X2 y2 heq2 =>
      have hc2 := tryScoreTwice_content e.model scorer X1 y1
      rw [heq2] at hc2
      exact ⟨rfl, rfl, rfl, rfl, rfl, rfl,
        congrArg some (hc2.1.trans hc.1), congrArg some (hc2.2.trans hc.2)⟩

/-- `runBranch` never changes the fitted flag. -/
lemma runBranch_has_been_fit (e : SymbolicPursuitExplainer)
    (scorer : List ℚ → Pred → ℚ) (X : Batch) (y : Labels) :
    (runBranch e scorer X y).2.has_been_fit = e.has_been_fit :=
  (runBranch_frame e scorer X y).2.2.2.2.1

/-- When both predictions succeed on their first attempt, `runBranch`
returns normally and stores both scores against the labels' content. -/
lemma runBranch_ok (e : SymbolicPursuitExplainer)
    (scorer : List ℚ → Pred → ℚ) (X : Batch) (y : Labels) (p q : Pred)
    (hp : e.symbolic_model.predict X = Except.ok p)
    (hq : e.model X = Except.ok q) :
    runBranch e scorer X y =
      (Except.ok (),
        { e with X_test := some X, y_test := some y,
                 fit_quality := some (scorer y.content p),
                 model_fit_quality := some (scorer y.content q) }) := by
  unfold runBranch
  rw [tryScoreTwice_ok e.symbolic_model.predict scorer X y p hp]
  dsimp only
  rw [tryScoreTwice_ok e.model scorer X y q hq]
  rfl

/-- C5: a successful `fit` sets the fitted flag, and on a fitted explainer
no operation — `fit`, `measure_fit_quality`, `explain`, `summary_plot` or
`symbolic_predict`, succeeding or failing — ever clears the flag. -/
theorem C5_thm (e e0 : SymbolicPursuitExplainer) (X_test : Batch)
    (y_test : Labels) (x0 : Option (List ℚ)) (ord : Nat) (b : Batch)
    (showFlag : Bool) (renderResult : Except PyError Unit)
    (h : e.has_been_fit = true) :
    ((fit e0).1 = Except.ok () → (fit e0).2.has_been_fit = true) ∧
    (fit e).2.has_been_fit = true ∧
    (measure_fit_quality e X_test y_test).2.has_been_fit = true ∧
    (explain e x0 ord).2.has_been_fit = true ∧
    (summary_plot e showFlag renderResult).2.has_been_fit = true ∧
    (symbolic_predict e b).2.has_been_fit = true := by
  refine ⟨?_, ?_, ?_, ?_, ?_, h⟩
  · intro hok
    rcases fit_ok_or_unchanged e0 with ⟨_, hflag⟩ | ⟨⟨err, herr⟩, _⟩
    · exact hflag
    · rw [hok] at herr
      exact absurd herr (by simp)
  · rcases fit_ok_or_unchanged e with ⟨_, hflag⟩ | ⟨_, hflag⟩
    · exact hflag
    · exact hflag.trans h
  · rw [measure_fit_quality_fitted e X_test y_test h]
    by_cases hc : e.symbolic_model.task_type = "classification"
    · rw [if_pos hc]
      exact (runBranch_has_been_fit _ _ _ _).trans h
    · rw [if_neg hc]
      by_cases hr : e.symbolic_model.task_type = "regression"
      · rw [if_pos hr]
        exact (runBranch_has_been_fit _ _ _ _).trans h
      · rw [if_neg hr]
        exact h
  · unfold explain
    rw [if_pos h]
    exact h
  · unfold summary_plot
    split
    · exact h
    · split
      · exact h
      · exact h

/-- Witness for C5 at a fitted explainer. -/
theorem C5_witness :
    demoFitted.has_been_fit = true ∧
    (((fit demoExplainer).1 = Except.ok () →
        (fit demoExplainer).2.has_been_fit = true) ∧
      (fit demoFitted).2.has_been_fit = true ∧
      (measure_fit_quality demoFitted demoBatch demoLabels).2.has_been_fit
        = true ∧
      (explain demoFitted none 2).2.has_been_fit = true ∧
      (summary_plot demoFitted false (Except.ok ())).2.has_been_fit = true ∧
      (symbolic_predict demoFitted demoBatch).2.has_been_fit = true) :=
  ⟨rfl, C5_thm demoFitted demoExplainer demoBatch demoLabels none 2 demoBatch
    false (Except.ok ()) rfl⟩

/-- C7: a successful `measure_fit_quality` on a fitted explainer stores, for
`task_type = "regression"`, the mean squared error of the surrogate's
predictions and of the opaque model's predictions against the same labels
(`(1/n) * sum((p_i - y_i)^2)`), and for `task_type = "classification"` the
fraction of exact matches, in both cases via the scoring function of the
matching branch. -/
theorem C7_thm (e : SymbolicPursuitExplainer) (X_test : Batch)
    (y_test : Labels) (p q : Pred) (h : e.has_been_fit = true)
    (hp : e.symbolic_model.predict X_test = Except.ok p)
    (hq : e.model X_test = Except.ok q) :
    (e.symbolic_model.task_type = "regression" →
      (measure_fit_quality e X_test y_test).1 = Except.ok () ∧
      (measure_fit_quality e X_test y_test).2.fit_quality =
        some (mean_squared_error y_test.content p) ∧
      (measure_fit_quality e X_test y_test).2.model_fit_quality =
        some (mean_squared_error y_test.content q) ∧
      mean_squared_error y_test.content p =
        (List.zipWith (fun a b => (a - b) ^ 2) y_test.content p).sum /
          (y_test.content.length : ℚ)) ∧
    (e.symbolic_model.task_type = "classification" →
      (measure_fit_quality e X_test y_test).1 = Except.ok () ∧
      (measure_fit_quality e X_test y_test).2.fit_quality =
        some (accuracy_score y_test.content p) ∧
      (measure_fit_quality e X_test y_test).2.model_fit_quality =
        some (accuracy_score y_test.content q) ∧
      accuracy_score y_test.content p =
        (List.zipWith (fun a b => if a = b then (1 : ℚ) else 0)
          y_test.content p).sum / (y_test.content.length : ℚ)) := by
  constructor
  · intro hreg
    have hne : ¬e.symbolic_model.task_type = "classification" := by
      rw [hreg]
      decide
    rw [measure_fit_quality_fitted e X_test y_test h, if_neg hne, if_pos hreg]
    rw [runBranch_ok { e with X_test := some X_test, y_test := some y_test }
      mean_squared_error X_test y_test p q hp hq]
    exact ⟨rfl, rfl, rfl, rfl⟩
  · intro hcl
    rw [measure_fit_quality_fitted e X_test y_test h, if_pos hcl]
    rw [runBranch_ok { e with X_test := some X_test, y_test := some y_test }
      accuracy_score X_test y_test p q hp hq]
    exact ⟨rfl, rfl, rfl, rfl⟩

/-- Witness for C7: a fitted regression explainer whose surrogate and model
both predict `[0, 0]` on the first attempt. -/
theorem C7_witness :
    demoFitted.has_been_fit = true ∧
    demoFitted.symbolic_model.predict demoBatch = Except.ok [0, 0] ∧
    demoFitted.model demoBatch = Except.ok [0, 0] ∧
    demoFitted.symbolic_model.task_type = "regression" ∧
    ((measure_fit_quality demoFitted demoBatch demoLabels).1 =
        Except.ok () ∧
      (measure_fit_quality demoFitted demoBatch demoLabels).2.fit_quality =
        some (mean_squared_error demoLabels.content [0, 0]) ∧
      (measure_fit_quality demoFitted demoBatch demoLabels).2.model_fit_quality
        = some (mean_squared_error demoLabels.content [0, 0]) ∧
      mean_squared_error demoLabels.content [0, 0] =
        (List.zipWith (fun a b => (a - b) ^ 2) demoLabels.content
          [0, 0]).sum / (demoLabels.content.length : ℚ)) :=
  ⟨rfl, rfl, rfl, rfl,
    (C7_thm demoFitted demoBatch demoLabels [0, 0] [0, 0] rfl rfl rfl).1 rfl⟩

/-- C10: `measure_fit_quality` on a fitted explainer stores the supplied
test batch and labels (same content, possibly converted representation) as
persistent fields, and modifies no field other than `X_test`, `y_test`,
`fit_quality` and `model_fit_quality`. -/
theorem C10_thm (e : SymbolicPursuitExplainer) (X_test : Batch)
    (y_test : Labels) (h : e.has_been_fit = true) :
    (measure_fit_quality e X_test y_test).2.X_test.map NumArr.content =
      some X_test.content ∧
    (measure_fit_quality e X_test y_test).2.y_test.map NumArr.content =
      some y_test.content ∧
    (measure_fit_quality e X_test y_test).2.model = e.model ∧
    (measure_fit_quality e X_test y_test).2.X_explain = e.X_explain ∧
    (measure_fit_quality e X_test y_test).2.feature_names = e.feature_names ∧
    (measure_fit_quality e X_test y_test).2.symbolic_model =
      e.symbolic_model ∧
    (measure_fit_quality e X_test y_test).2.has_been_fit = e.has_been_fit ∧
    (measure_fit_quality e X_test y_test).2.explanation = e.explanation := by
  rw [measure_fit_quality_fitted e X_test y_test h]
  by_cases hc : e.symbolic_model.task_type = "classification"
  · rw [if_pos hc]
    obtain ⟨a, b2, c, d, f, g, i, j⟩ :=
      runBranch_frame { e with X_test := some X_test, y_test := some y_test }
        accuracy_score X_test y_test
    exact ⟨i, j, a, b2, c, d, f, g⟩
  · rw [if_neg hc]
    by_cases hr : e.symbolic_model.task_type = "regression"
    · rw [if_pos hr]
      obtain ⟨a, b2, c, d, f, g, i, j⟩ :=
        runBranch_frame { e with X_test := some X_test, y_test := some y_test }
          mean_squared_error X_test y_test
      exact ⟨i, j, a, b2, c, d, f, g⟩
    · rw [if_neg hr]
      exact ⟨rfl, rfl, rfl, rfl, rfl, rfl, rfl, rfl⟩

/-- Witness for C10 at a fitted explainer. -/
theorem C10_witness :
    demoFitted.has_been_fit = true ∧
    (measure_fit_quality demoFitted demoBatch demoLabels).2.X_test.map
      NumArr.content = some demoBatch.content ∧
    (measure_fit_quality demoFitted demoBatch demoLabels).2.explanation =
      demoFitted.explanation :=
  ⟨rfl, (C10_thm demoFitted demoBatch demoLabels rfl).1,
    (C10_thm demoFitted demoBatch demoLabels rfl).2.2.2.2.2.2.2⟩
